import Mathlib

/-!
Verification development for the cookie-crawler repository.

The definitions below are a shallow embedding of the three core modules:
  * src/crawlers/presence_crawler.py  (HTTP reachability and CMP fingerprints)
  * src/crawlers/consent_crawler.py   (browser crawl, sqlite persistence)
  * src/database/extract_cookies.py   (cookie and consent matcher and export)

Network, browser and sqlite effects are modelled by explicit oracles
(functions from URL to outcome, a per-domain browser environment, and
record lists standing for the three tables).  Python regular expressions
in the source are all literal (modulo one two-way alternation), so
pattern search is modelled as case-insensitive substring containment.
-/

/-! ## String utilities -/

/-- Lower-case the characters of a string (model of Python str.lower and
of re.IGNORECASE matching). -/
def lowerData (s : String) : List Char := s.data.map Char.toLower

/-- Does the list `b` start with the list `a`? -/
def startsList : List Char → List Char → Bool
  | [], _ => true
  | _ :: _, [] => false
  | a :: as, b :: bs => a == b && startsList as bs

/-- Substring containment on character lists (model of Python `in` /
re.search with a literal pattern). -/
def hasSub (pat : List Char) : List Char → Bool
  | [] => startsList pat []
  | c :: cs => startsList pat (c :: cs) || hasSub pat cs

/-- Case-insensitive containment of a (lower-case) literal pattern in `s`. -/
def strHasCI (s pat : String) : Bool := hasSub pat.data (lowerData s)

/-- Render an optional string the way a Python f-string renders it
(None prints as "None"). -/
def strOfOpt : Option String → String
  | none => "None"
  | some s => s

/-- Python `x or d` for an optional string column: None and "" are falsy. -/
def orDef (o : Option String) (d : String) : String :=
  match o with
  | none => d
  | some "" => d
  | some s => s

theorem startsList_iff (a : List Char) : ∀ b : List Char,
    startsList a b = true ↔ ∃ t, b = a ++ t := by
  induction a with
  | nil => intro b; simp [startsList]
  | cons c cs ih =>
    intro b
    cases b with
    | nil => simp [startsList]
    | cons d ds =>
      simp only [startsList, Bool.and_eq_true, beq_iff_eq, ih, List.cons_append,
        List.cons.injEq]
      aesop

theorem hasSub_iff (a : List Char) : ∀ s : List Char,
    hasSub a s = true ↔ ∃ p t, s = p ++ a ++ t := by
  intro s
  induction s with
  | nil =>
    simp only [hasSub, startsList_iff]
    constructor
    · rintro ⟨t, h⟩
      exact ⟨[], t, by simpa using h⟩
    · rintro ⟨p, t, h⟩
      rcases List.append_eq_nil.mp h.symm with ⟨h1, h2⟩
      rcases List.append_eq_nil.mp h1 with ⟨h3, h4⟩
      subst h2; subst h4
      exact ⟨[], by simp⟩
  | cons c cs ih =>
    simp only [hasSub, Bool.or_eq_true, startsList_iff, ih]
    constructor
    · rintro (⟨t, h⟩ | ⟨p, t, h⟩)
      · exact ⟨[], t, by simpa using h⟩
      · exact ⟨c :: p, t, by simp [h]⟩
    · rintro ⟨p, t, h⟩
      cases p with
      | nil => exact Or.inl ⟨t, by simpa using h⟩
      | cons q qs =>
        rw [List.cons_append, List.cons_append] at h
        injection h with h1 h2
        exact Or.inr ⟨qs, t, h2⟩

theorem hasSub_trans {a b c : List Char} (h1 : hasSub a b = true)
    (h2 : hasSub b c = true) : hasSub a c = true := by
  rcases (hasSub_iff a b).mp h1 with ⟨p, t, hb⟩
  rcases (hasSub_iff b c).mp h2 with ⟨q, r, hc⟩
  exact (hasSub_iff a c).mpr ⟨q ++ p, t ++ r, by simp [hc, hb, List.append_assoc]⟩

/-! ## Presence Probe (src/crawlers/presence_crawler.py) -/

/-- Result codes of the presence crawler (class QuickCrawlResult). -/
inductive QuickCrawlResult where
  | CRAWL_TIMEOUT
  | OK
  | CONNECT_FAIL
  | HTTP_ERROR
  | BOT
  | NOCMP
  | COOKIEBOT
  | ONETRUST
  | TERMLY
deriving DecidableEq

/-- cb_base_pat with its (com|eu) alternation expanded, plus cb_script_name,
as lower-case literals. -/
def cookiebot_literals : List String :=
  ["https://consent.cookiebot.com/", "https://consent.cookiebot.eu/", "cb-main.js"]

/-- onetrust_patterns: the seven literal CDN URLs, lower-case. -/
def onetrust_literals : List String :=
  ["https://cdn-apac.onetrust.com",
   "https://cdn-ukwest.onetrust.com",
   "https://cmp-cdn.cookielaw.org",
   "https://cdn.cookielaw.org",
   "https://optanon.blob.core.windows.net",
   "https://cookie-cdn.cookiepro.com",
   "https://cookiepro.blob.core.windows.net"]

/-- termly_url_pattern as a lower-case literal. -/
def termly_literal : String := "https://app.termly.io/"

/-- PresenceCrawler.check_cookiebot_presence: cb_base_pat or cb_script_name
found in the response text. -/
def check_cookiebot_presence (body : String) : Bool :=
  cookiebot_literals.any (fun p => strHasCI body p)

/-- PresenceCrawler.check_onetrust_presence: any of onetrust_patterns found. -/
def check_onetrust_presence (body : String) : Bool :=
  onetrust_literals.any (fun p => strHasCI body p)

/-- PresenceCrawler.check_termly_presence: termly_url_pattern found. -/
def check_termly_presence (body : String) : Bool :=
  strHasCI body termly_literal

/-- Module-level configuration flag check_cmp (True in the source). -/
def check_cmp : Bool := true

/-- The CMP classification applied to a successful response body
(the if/elif chain at the end of run_reachability_check). -/
def cmpClassify (body : String) : QuickCrawlResult :=
  if check_cookiebot_presence body then .COOKIEBOT
  else if check_onetrust_presence body then .ONETRUST
  else if check_termly_presence body then .TERMLY
  else .NOCMP

/-- Outcome of one requests.get call, as far as run_reachability_check
distinguishes outcomes.  sslSchemeErr bundles TooManyRedirects, SSLError,
URLRequired and MissingSchema; connErr bundles ConnectionError and Timeout;
otherErr is the bare `except Exception` arm.  A response carries its status
code, its final URL after redirects (r.url) and its text. -/
inductive NetOutcome where
  | sslSchemeErr
  | connErr
  | otherErr
  | resp (status : Nat) (finalUrl : String) (body : String)
deriving DecidableEq

/-- Characters urllib.parse allows inside a URL scheme. -/
def schemeChar (c : Char) : Bool :=
  c.isAlpha || c.isDigit || c = '+' || c = '-' || c = '.'

/-- The characters before the first colon, if any colon is present. -/
def beforeColon : List Char → Option (List Char)
  | [] => none
  | c :: cs => if c = ':' then some [] else (beforeColon cs).map (c :: ·)

/-- The scheme urlparse extracts: the non-empty text before the first colon,
starting with a letter and made of scheme characters, lower-cased; ""
otherwise.  (CPython also strips surrounding whitespace, not modelled.) -/
def parsedScheme (s : String) : String :=
  match beforeColon s.data with
  | none => ""
  | some [] => ""
  | some (c :: cs) =>
    if c.isAlpha && (c :: cs).all schemeChar then
      String.mk ((c :: cs).map Char.toLower)
    else ""

/-- component_tuple.scheme in ("http", "https"). -/
def isHttpScheme (s : String) : Bool :=
  parsedScheme s = "http" || parsedScheme s = "https"

/-- re.sub("^www\\.", "", input_domain): drop one leading "www.". -/
def stripWww (s : String) : String :=
  if s.startsWith "www." then s.drop 4 else s

/-- The completed URLs the source loop would build, in loop order:
[""] ++ input for a schemed input, the three fixed prefixed forms of the
www-stripped host otherwise. -/
def candidateUrls (input : String) : List String :=
  if isHttpScheme input then [input]
  else
    ["https://www." ++ stripWww input,
     "https://" ++ stripWww input,
     "http://" ++ stripWww input]

/-- The loop of run_reachability_check over the completed URLs: continue on
connection/timeout errors, return CONNECT_FAIL with the original input on
SSL/scheme-class or unexpected errors, classify a response (r.ok means
status < 400; 403/406 are BOT, other error statuses HTTP_ERROR, otherwise
the CMP content classification on r.url).  Exhaustion gives CONNECT_FAIL
with the original input. -/
def reachLoop (net : String → NetOutcome) (input : String) :
    List String → String × QuickCrawlResult
  | [] => (input, .CONNECT_FAIL)
  | u :: us =>
    match net u with
    | .sslSchemeErr => (input, .CONNECT_FAIL)
    | .otherErr => (input, .CONNECT_FAIL)
    | .connErr => reachLoop net input us
    | .resp status finalUrl body =>
      if 400 ≤ status then
        if status = 403 ∨ status = 406 then (u, .BOT) else (u, .HTTP_ERROR)
      else if check_cmp then (finalUrl, cmpClassify body)
      else (finalUrl, .OK)

/-- PresenceCrawler.run_reachability_check, with the network effect as an
explicit oracle from URL to outcome. -/
def run_reachability_check (net : String → NetOutcome) (input : String) :
    String × QuickCrawlResult :=
  reachLoop net input (candidateUrls input)

/-- Observation: which completed URLs the loop actually requests, in order.
The loop requests the head and proceeds past it only on a
connection/timeout-class error. -/
def attemptedUrls (net : String → NetOutcome) : List String → List String
  | [] => []
  | u :: us => if net u = .connErr then u :: attemptedUrls net us else [u]

theorem attemptedUrls_nil_iff (net : String → NetOutcome) (us : List String) :
    attemptedUrls net us = [] ↔ us = [] := by
  cases us with
  | nil => simp [attemptedUrls]
  | cons u rest =>
    simp only [attemptedUrls]
    by_cases hv : net u = .connErr <;> simp [hv]

theorem attemptedUrls_take (net : String → NetOutcome) : ∀ us : List String,
    attemptedUrls net us = us.take (attemptedUrls net us).length := by
  intro us
  induction us with
  | nil => rfl
  | cons u rest ih =>
    by_cases hv : net u = .connErr
    · simp only [attemptedUrls, hv, if_true, List.length_cons, List.take_succ_cons]
      exact congrArg (u :: ·) ih
    · simp [attemptedUrls, hv]

theorem attemptedUrls_dropLast_conn (net : String → NetOutcome) :
    ∀ us : List String, ∀ u ∈ (attemptedUrls net us).dropLast,
      net u = .connErr := by
  intro us
  induction us with
  | nil => intro u hu; simp [attemptedUrls] at hu
  | cons v rest ih =>
    intro u hu
    by_cases hv : net v = .connErr
    · simp only [attemptedUrls, hv, if_true] at hu
      cases hA : attemptedUrls net rest with
      | nil => rw [hA] at hu; simp at hu
      | cons a as =>
        rw [hA, List.dropLast_cons₂] at hu
        rcases List.mem_cons.mp hu with h | h
        · rw [h]; exact hv
        · exact ih u (hA ▸ h)
    · simp [attemptedUrls, hv] at hu

theorem attemptedUrls_all_conn (net : String → NetOutcome) :
    ∀ us : List String, (∀ u ∈ us, net u = .connErr) →
      attemptedUrls net us = us := by
  intro us
  induction us with
  | nil => intro _; rfl
  | cons u rest ih =>
    intro h
    simp only [attemptedUrls, h u (by simp), if_true]
    rw [ih (fun v hv => h v (by simp [hv]))]

theorem attemptedUrls_last_conn (net : String → NetOutcome) :
    ∀ us : List String, ∀ u,
      (attemptedUrls net us).getLast? = some u → net u = .connErr →
      attemptedUrls net us = us := by
  intro us
  induction us with
  | nil => intro u h _; simp [attemptedUrls] at h
  | cons v rest ih =>
    intro u hlast hconn
    by_cases hv : net v = .connErr
    · simp only [attemptedUrls, hv, if_true] at hlast ⊢
      cases hA : attemptedUrls net rest with
      | nil =>
        have hrest : rest = [] := (attemptedUrls_nil_iff net rest).mp hA
        simp [hrest, hA]
      | cons a as =>
        rw [hA] at hlast
        rw [List.getLast?_cons_cons] at hlast
        have h2 := ih u (hA ▸ hlast) hconn
        exact congrArg (v :: ·) (hA.symm.trans h2)
    · simp only [attemptedUrls, hv, if_neg] at hlast
      simp at hlast
      rw [← hlast] at hconn
      exact absurd hconn hv

theorem reachLoop_all_conn (net : String → NetOutcome) (input : String) :
    ∀ us : List String, (∀ u ∈ us, net u = .connErr) →
      reachLoop net input us = (input, .CONNECT_FAIL) := by
  intro us
  induction us with
  | nil => intro _; rfl
  | cons u rest ih =>
    intro h
    simp only [reachLoop, h u (by simp)]
    exact ih (fun v hv => h v (by simp [hv]))

/-- Claim C4: a domain carrying an http/https scheme gets exactly one
connection attempt, at that URL; an unschemed domain has its leading
"www." stripped and the three fixed prefixed URLs are attempted in order,
the loop advancing only past connection/timeout errors (so the first
attempt yielding a response or an SSL/scheme-class error is the last one,
and an attempt ending in a connection error is last only when every
candidate was attempted), and exhausting all candidates without a response
returns CONNECT_FAIL with the original input. -/
theorem C4_url_resolution_order (net : String → NetOutcome) (input : String) :
    (isHttpScheme input = true →
      attemptedUrls net (candidateUrls input) = [input]) ∧
    (isHttpScheme input = false →
      candidateUrls input =
        ["https://www." ++ stripWww input, "https://" ++ stripWww input,
         "http://" ++ stripWww input] ∧
      attemptedUrls net (candidateUrls input) =
        (candidateUrls input).take (attemptedUrls net (candidateUrls input)).length ∧
      (∀ u ∈ (attemptedUrls net (candidateUrls input)).dropLast,
        net u = NetOutcome.connErr) ∧
      (∀ u, (attemptedUrls net (candidateUrls input)).getLast? = some u →
        net u = NetOutcome.connErr →
        attemptedUrls net (candidateUrls input) = candidateUrls input) ∧
      ((∀ u ∈ candidateUrls input, net u = NetOutcome.connErr) →
        run_reachability_check net input = (input, QuickCrawlResult.CONNECT_FAIL))) := by
  constructor
  · intro h
    simp only [candidateUrls, h, if_true, attemptedUrls]
    by_cases hv : net input = .connErr <;> simp [hv, attemptedUrls]
  · intro h
    refine ⟨by simp [candidateUrls, h], attemptedUrls_take net _,
      attemptedUrls_dropLast_conn net _, attemptedUrls_last_conn net _, ?_⟩
    intro hall
    exact reachLoop_all_conn net input _ hall

/-- A network oracle for the C4 witness: every URL times out. -/
def netAllConn : String → NetOutcome := fun _ => .connErr

/-- Witness for C4: the unschemed domain example.com exhausts all three
candidates under an all-timeout network and returns CONNECT_FAIL with the
original input; the schemed domain is attempted once, as itself. -/
theorem C4_url_resolution_order_witness :
    (isHttpScheme "example.com" = false ∧
      run_reachability_check netAllConn "example.com" =
        ("example.com", QuickCrawlResult.CONNECT_FAIL)) ∧
    (isHttpScheme "http://x.com" = true ∧
      attemptedUrls netAllConn (candidateUrls "http://x.com") = ["http://x.com"]) :=
  ⟨⟨by decide,
    ((C4_url_resolution_order netAllConn "example.com").2 (by decide)).2.2.2.2
      (fun u _ => rfl)⟩,
   ⟨by decide,
    (C4_url_resolution_order netAllConn "http://x.com").1 (by decide)⟩⟩

/-- A body carrying both a Cookiebot and a OneTrust fingerprint. -/
def bothMarkersBody : String :=
  "window https://consent.cookiebot.com/uc.js and https://cdn.cookielaw.org/consent.js"

/-- Claim C5: the content classification of a successful response tests
Cookiebot, then OneTrust, then Termly, the first matching family winning;
no match yields NOCMP; a sub-400 response flows into exactly this
classification of its body; and a body carrying both Cookiebot and
OneTrust markers classifies as COOKIEBOT. -/
theorem C5_fingerprint_precedence (body : String) :
    (check_cookiebot_presence body = true →
      cmpClassify body = QuickCrawlResult.COOKIEBOT) ∧
    (check_cookiebot_presence body = false → check_onetrust_presence body = true →
      cmpClassify body = QuickCrawlResult.ONETRUST) ∧
    (check_cookiebot_presence body = false → check_onetrust_presence body = false →
      check_termly_presence body = true →
      cmpClassify body = QuickCrawlResult.TERMLY) ∧
    (check_cookiebot_presence body = false → check_onetrust_presence body = false →
      check_termly_presence body = false →
      cmpClassify body = QuickCrawlResult.NOCMP) ∧
    (∀ (net : String → NetOutcome) (input u finalUrl : String) (us : List String)
      (status : Nat), net u = NetOutcome.resp status finalUrl body → status < 400 →
      reachLoop net input (u :: us) = (finalUrl, cmpClassify body)) ∧
    (check_cookiebot_presence bothMarkersBody = true ∧
      check_onetrust_presence bothMarkersBody = true ∧
      cmpClassify bothMarkersBody = QuickCrawlResult.COOKIEBOT) := by
  refine ⟨?_, ?_, ?_, ?_, ?_, by decide, by decide, by decide⟩
  · intro h; simp [cmpClassify, h]
  · intro h1 h2; simp [cmpClassify, h1, h2]
  · intro h1 h2 h3; simp [cmpClassify, h1, h2, h3]
  · intro h1 h2 h3; simp [cmpClassify, h1, h2, h3]
  · intro net input u finalUrl us status hnet hlt
    simp [reachLoop, hnet, Nat.not_le.mpr hlt, check_cmp]

/-- A body carrying only a OneTrust fingerprint. -/
def otOnlyBody : String := "see https://cdn.cookielaw.org/a.js here"

/-- Witness for C5: a body with a OneTrust marker and no Cookiebot marker
classifies as ONETRUST. -/
theorem C5_fingerprint_precedence_witness :
    check_cookiebot_presence otOnlyBody = false ∧
    check_onetrust_presence otOnlyBody = true ∧
    cmpClassify otOnlyBody = QuickCrawlResult.ONETRUST :=
  ⟨by decide, by decide,
    (C5_fingerprint_precedence otOnlyBody).2.1 (by decide) (by decide)⟩

/-! ## Consent Extractor CMP detection (src/crawlers/consent_crawler.py) -/

/-- The Cookiebot test of ConsentCrawler.detect_cmp_type: "cookiebot" or
"consent.cookiebot" in the lower-cased page source. -/
def cbKeywordHit (page : String) : Bool :=
  strHasCI page "cookiebot" || strHasCI page "consent.cookiebot"

/-- The OneTrust test of detect_cmp_type: any of the four keywords. -/
def otKeywordHit (page : String) : Bool :=
  ["onetrust", "cookielaw", "optanon", "cookiepro"].any (fun p => strHasCI page p)

/-- The Termly test of detect_cmp_type: "termly" or "app.termly.io". -/
def teKeywordHit (page : String) : Bool :=
  strHasCI page "termly" || strHasCI page "app.termly.io"

/-- ConsentCrawler.detect_cmp_type on the rendered page source. -/
def detect_cmp_type (page : String) : String :=
  if cbKeywordHit page then "cookiebot"
  else if otKeywordHit page then "onetrust"
  else if teKeywordHit page then "termly"
  else "unknown"

/-- The CMP family name a presence-probe outcome denotes, for comparing the
two probing paths (from the spec wording: both paths detect a CMP family,
with no match mapping to unknown/NOCMP). -/
def cmpFamilyName : QuickCrawlResult → String
  | .COOKIEBOT => "cookiebot"
  | .ONETRUST => "onetrust"
  | .TERMLY => "termly"
  | .NOCMP => "unknown"
  | _ => "none"

theorem strHasCI_mono {page p q : String} (hpq : hasSub q.data p.data = true)
    (h : strHasCI page p = true) : strHasCI page q = true :=
  hasSub_trans hpq h

theorem ot_presence_keyword (page : String)
    (h : check_onetrust_presence page = true) : otKeywordHit page = true := by
  simp only [check_onetrust_presence, onetrust_literals, List.any_cons, List.any_nil,
    Bool.or_eq_true, Bool.or_false] at h
  simp only [otKeywordHit, List.any_cons, List.any_nil, Bool.or_eq_true, Bool.or_false]
  rcases h with h | h | h | h | h | h | h
  · exact Or.inl (strHasCI_mono (by decide) h)
  · exact Or.inl (strHasCI_mono (by decide) h)
  · exact Or.inr (Or.inl (strHasCI_mono (by decide) h))
  · exact Or.inr (Or.inl (strHasCI_mono (by decide) h))
  · exact Or.inr (Or.inr (Or.inl (strHasCI_mono (by decide) h)))
  · exact Or.inr (Or.inr (Or.inr (strHasCI_mono (by decide) h)))
  · exact Or.inr (Or.inr (Or.inr (strHasCI_mono (by decide) h)))

theorem te_presence_keyword (page : String)
    (h : check_termly_presence page = true) : teKeywordHit page = true := by
  simp only [check_termly_presence] at h
  simp only [teKeywordHit, Bool.or_eq_true]
  exact Or.inl (strHasCI_mono (by decide) h)

theorem cb_url_keyword (page : String)
    (h : strHasCI page "https://consent.cookiebot.com/" = true ∨
         strHasCI page "https://consent.cookiebot.eu/" = true) :
    cbKeywordHit page = true := by
  simp only [cbKeywordHit, Bool.or_eq_true]
  rcases h with h | h
  · exact Or.inl (strHasCI_mono (by decide) h)
  · exact Or.inl (strHasCI_mono (by decide) h)

/-- Claim C6, corrected: the two probing paths share the precedence order
Cookiebot, OneTrust, Termly and both map no match to unknown/NOCMP, but
their signature sets differ.  Every Presence-Probe OneTrust or Termly
fingerprint also triggers the Extractor keyword of the same family; a page
the Extractor calls unknown is classified NOCMP by the probe unless its
only marker is the cb-main.js Cookiebot script; and a probe ONETRUST or
TERMLY classification forces the Extractor to detect a family at least as
early in the precedence order. -/
theorem C6_precedence_alignment (page : String) :
    (check_onetrust_presence page = true → otKeywordHit page = true) ∧
    (check_termly_presence page = true → teKeywordHit page = true) ∧
    (detect_cmp_type page = "unknown" →
      cmpClassify page = QuickCrawlResult.NOCMP ∨
      (cmpClassify page = QuickCrawlResult.COOKIEBOT ∧
        strHasCI page "cb-main.js" = true)) ∧
    (cmpClassify page = QuickCrawlResult.ONETRUST →
      detect_cmp_type page = "cookiebot" ∨ detect_cmp_type page = "onetrust") ∧
    (cmpClassify page = QuickCrawlResult.TERMLY →
      detect_cmp_type page = "cookiebot" ∨ detect_cmp_type page = "onetrust" ∨
      detect_cmp_type page = "termly") := by
  refine ⟨ot_presence_keyword page, te_presence_keyword page, ?_, ?_, ?_⟩
  · intro hdet
    cases hcb : cbKeywordHit page with
    | true => exact absurd hdet (by simp [detect_cmp_type, hcb])
    | false =>
    cases hot : otKeywordHit page with
    | true => exact absurd hdet (by simp [detect_cmp_type, hcb, hot])
    | false =>
    cases hte : teKeywordHit page with
    | true => exact absurd hdet (by simp [detect_cmp_type, hcb, hot, hte])
    | false =>
    have hotp : check_onetrust_presence page = false := by
      cases hOP : check_onetrust_presence page
      · rfl
      · exact absurd (ot_presence_keyword page hOP) (by simp [hot])
    have htep : check_termly_presence page = false := by
      cases hTP : check_termly_presence page
      · rfl
      · exact absurd (te_presence_keyword page hTP) (by simp [hte])
    cases hcbp : check_cookiebot_presence page with
    | true =>
      right
      refine ⟨by simp [cmpClassify, hcbp], ?_⟩
      simp only [check_cookiebot_presence, cookiebot_literals, List.any_cons,
        List.any_nil, Bool.or_eq_true, Bool.or_false] at hcbp
      rcases hcbp with h | h | h
      · exact absurd (cb_url_keyword page (Or.inl h)) (by simp [hcb])
      · exact absurd (cb_url_keyword page (Or.inr h)) (by simp [hcb])
      · exact h
    | false =>
      left
      simp [cmpClassify, hcbp, hotp, htep]
  · intro h
    have hcbp : check_cookiebot_presence page = false := by
      cases hC : check_cookiebot_presence page
      · rfl
      · exact absurd h (by simp [cmpClassify, hC])
    have hotp : check_onetrust_presence page = true := by
      cases hO : check_onetrust_presence page
      · exact absurd h (by cases hT : check_termly_presence page <;>
          simp [cmpClassify, hcbp, hO, hT])
      · rfl
    have hkw := ot_presence_keyword page hotp
    cases hcbk : cbKeywordHit page with
    | true => exact Or.inl (by simp [detect_cmp_type, hcbk])
    | false => exact Or.inr (by simp [detect_cmp_type, hcbk, hkw])
  · intro h
    have hcbp : check_cookiebot_presence page = false := by
      cases hC : check_cookiebot_presence page
      · rfl
      · exact absurd h (by simp [cmpClassify, hC])
    have hotp : check_onetrust_presence page = false := by
      cases hO : check_onetrust_presence page
      · rfl
      · exact absurd h (by simp [cmpClassify, hcbp, hO])
    have htep : check_termly_presence page = true := by
      cases hT : check_termly_presence page
      · exact absurd h (by simp [cmpClassify, hcbp, hotp, hT])
      · rfl
    have hkw := te_presence_keyword page htep
    cases hcbk : cbKeywordHit page with
    | true => exact Or.inl (by simp [detect_cmp_type, hcbk])
    | false =>
      cases hotk : otKeywordHit page with
      | true => exact Or.inr (Or.inl (by simp [detect_cmp_type, hcbk, hotk]))
      | false => exact Or.inr (Or.inr (by simp [detect_cmp_type, hcbk, hotk, hkw]))

/-- Counterexample to claim C6 as stated: a page whose only marker is the
cb-main.js script is COOKIEBOT for the Presence Probe but unknown for the
Consent Extractor, so the two paths do not use the same signatures. -/
theorem C6_divergence_counterexample :
    cmpFamilyName (cmpClassify "cb-main.js") = "cookiebot" ∧
    detect_cmp_type "cb-main.js" = "unknown" ∧
    cmpFamilyName (cmpClassify "cb-main.js") ≠ detect_cmp_type "cb-main.js" :=
  ⟨by decide, by decide, by decide⟩

/-- A page carrying a OneTrust CDN URL, for the C6 witness. -/
def pageC6w : String := "loads https://cdn-apac.onetrust.com/sdk.js"

/-- Witness for C6: a page the probe classifies ONETRUST is detected as
cookiebot or onetrust by the extractor. -/
theorem C6_precedence_alignment_witness :
    cmpClassify pageC6w = QuickCrawlResult.ONETRUST ∧
    (detect_cmp_type pageC6w = "cookiebot" ∨ detect_cmp_type pageC6w = "onetrust") :=
  ⟨by decide, (C6_precedence_alignment pageC6w).2.2.2.1 (by decide)⟩

/-! ## Cookie-Consent Matcher (src/database/extract_cookies.py) -/

/-- CookieExtractor._map_cmp_type (leading underscore dropped):
exact-match mapping of the stored cmp_type string to a code. -/
def map_cmp_type (cmp_type : Option String) : Int :=
  match cmp_type with
  | some "cookiebot" => 0
  | some "onetrust" => 1
  | some "termly" => 2
  | _ => -1

/-- The keyword table of CookieExtractor._map_purpose_category, in source
order: necessary, functional, analytics, advertising, social. -/
def purpose_keyword_table : List (List String) :=
  [["necessary", "essential", "required", "strictly"],
   ["functional", "preference", "personalization"],
   ["analytics", "performance", "statistics", "measurement"],
   ["advertising", "marketing", "targeting", "ads"],
   ["social", "media"]]

/-- CookieExtractor._map_purpose_category (leading underscore dropped):
falsy input (NULL or "") is -1, otherwise the if/elif chain of
case-insensitive keyword-containment tests. -/
def map_purpose_category (category : Option String) : Int :=
  match category with
  | none => -1
  | some s =>
    if s = "" then -1
    else if ["necessary", "essential", "required", "strictly"].any
        (fun k => strHasCI s k) then 0
    else if ["functional", "preference", "personalization"].any
        (fun k => strHasCI s k) then 1
    else if ["analytics", "performance", "statistics", "measurement"].any
        (fun k => strHasCI s k) then 2
    else if ["advertising", "marketing", "targeting", "ads"].any
        (fun k => strHasCI s k) then 3
    else if ["social", "media"].any (fun k => strHasCI s k) then 4
    else -1

/-- Modelled from the spec wording of label normalization: an ordered
first-match scan of the keyword table, -1 when nothing matches or the text
is empty.  Used only to compare against map_purpose_category. -/
def mapPurposeSpec (category : Option String) : Int :=
  match category with
  | none => -1
  | some s =>
    if s = "" then -1
    else
      match purpose_keyword_table.findIdx?
          (fun kws => kws.any (fun k => strHasCI s k)) with
      | some i => Int.ofNat i
      | none => -1

/-- One row of the matcher query: crawl_results LEFT JOIN cookies LEFT JOIN
consent_data, WHERE cr.success = 1.  Cookie columns are NULL when the crawl
has no cookie rows; consent columns are NULL when no declaration joins. -/
structure JoinedRow where
  crawl_id : Nat
  domain : String
  cmp_type : Option String
  cookie_name : Option String
  cookie_domain : Option String
  cookie_value : Option String
  cookie_path : Option String
  cookie_expiry : Option String
  cookie_secure : Option Bool
  cookie_http_only : Option Bool
  cookie_same_site : Option String
  purpose_category : Option String
  purpose_description : Option String
deriving DecidableEq

/-- One element of a MatchedCookie variable_data list. -/
structure VarData where
  value : String
  expiry : String
  secure : Bool
  http_only : Bool
  same_site : String
deriving DecidableEq

/-- One export entry of the matcher (a MatchedCookie). -/
structure CookieEntry where
  name : String
  domain : String
  path : String
  cmp_origin : Int
  label : Int
  purpose_description : String
  crawl_domain : String
  variable_data : List VarData
deriving DecidableEq

/-- Loop state of extract_cookies_with_consent: the insertion-ordered
extracted_data dict and the two counters. -/
structure ExtractState where
  dict : List (String × CookieEntry)
  matched : Nat
  unmatched : Nat
deriving DecidableEq

/-- Python `if not row[cookie_name]`: NULL or empty string. -/
def falsyName (r : JoinedRow) : Bool :=
  match r.cookie_name with
  | none => true
  | some s => s = ""

/-- Python `bool(row[purpose_category])`: a joined, non-empty category. -/
def hasConsentData (r : JoinedRow) : Bool :=
  match r.purpose_category with
  | none => false
  | some s => s ≠ ""

/-- The f-string cookie id `domain_name` (None renders as "None"). -/
def rowKey (r : JoinedRow) : String :=
  strOfOpt r.cookie_domain ++ "_" ++ strOfOpt r.cookie_name

/-- The variable_data element built from one row. -/
def varOf (r : JoinedRow) : VarData :=
  { value := orDef r.cookie_value ""
    expiry := orDef r.cookie_expiry ""
    secure := r.cookie_secure.getD false
    http_only := r.cookie_http_only.getD false
    same_site := orDef r.cookie_same_site "no_restriction" }

/-- The cookie_entry dict built from one row. -/
def entryOf (r : JoinedRow) : CookieEntry :=
  { name := strOfOpt r.cookie_name
    domain := strOfOpt r.cookie_domain
    path := orDef r.cookie_path "/"
    cmp_origin := map_cmp_type r.cmp_type
    label := map_purpose_category r.purpose_category
    purpose_description := orDef r.purpose_description ""
    crawl_domain := r.domain
    variable_data := [varOf r] }

/-- Find the entry stored under a key in the insertion-ordered dict. -/
def assocFind (k : String) : List (String × CookieEntry) → Option CookieEntry
  | [] => none
  | (k2, e) :: rest => if k2 = k then some e else assocFind k rest

/-- Append one variable_data element to the entry stored under a key,
keeping its position (Python dict update in place). -/
def assocUpdVar (key : String) (v : VarData) :
    List (String × CookieEntry) → List (String × CookieEntry)
  | [] => []
  | (k, e) :: rest =>
    if k = key then (k, { e with variable_data := e.variable_data ++ [v] }) :: rest
    else (k, e) :: assocUpdVar key v rest

/-- A row is kept by the loop: it has a cookie, and either consent data
joined or include_unmatched is set. -/
def rowKept (include_unmatched : Bool) (r : JoinedRow) : Bool :=
  !falsyName r && (hasConsentData r || include_unmatched)

/-- One iteration of the extract_cookies_with_consent row loop. -/
def extractStep (include_unmatched : Bool) (st : ExtractState) (r : JoinedRow) :
    ExtractState :=
  if falsyName r then st
  else if !hasConsentData r && !include_unmatched then
    { st with unmatched := st.unmatched + 1 }
  else
    let st1 :=
      if hasConsentData r then { st with matched := st.matched + 1 }
      else { st with unmatched := st.unmatched + 1 }
    match assocFind (rowKey r) st1.dict with
    | some _ => { st1 with dict := assocUpdVar (rowKey r) (varOf r) st1.dict }
    | none => { st1 with dict := st1.dict ++ [(rowKey r, entryOf r)] }

/-- The whole row loop from the initial empty state. -/
def processRows (include_unmatched : Bool) (rows : List JoinedRow) : ExtractState :=
  rows.foldl (extractStep include_unmatched) ⟨[], 0, 0⟩

/-- The statistics block of the returned dict; extraction_date is
datetime.now().isoformat(), passed here as an explicit clock value. -/
structure ExportStats where
  total_unique_cookies : Nat
  matched_cookies : Nat
  unmatched_cookies : Nat
  extraction_date : String
deriving DecidableEq

/-- The full value returned by extract_cookies_with_consent. -/
structure ExportData where
  cookies : List (String × CookieEntry)
  statistics : ExportStats
deriving DecidableEq

/-- CookieExtractor.extract_cookies_with_consent over an ordered row list,
with the wall clock as an explicit argument. -/
def extract_cookies_with_consent (include_unmatched : Bool)
    (rows : List JoinedRow) (now : String) : ExportData :=
  let st := processRows include_unmatched rows
  { cookies := st.dict
    statistics :=
      { total_unique_cookies := st.dict.length
        matched_cookies := st.matched
        unmatched_cookies := st.unmatched
        extraction_date := now } }

/-- Claim C7: label normalization is the ordered, case-insensitive
keyword-containment scan over necessary(0), functional(1), analytics(2),
advertising(3), social(4) with -1 for no match or empty text; in
particular the three quoted instances map to 0, 3 and -1. -/
theorem C7_label_normalization :
    (∀ category : Option String,
      map_purpose_category category = mapPurposeSpec category) ∧
    map_purpose_category (some "Strictly Necessary Cookies") = 0 ∧
    map_purpose_category (some "Marketing & Advertising") = 3 ∧
    map_purpose_category (some "") = -1 ∧
    map_purpose_category none = -1 ∧
    map_purpose_category (some "session token") = -1 := by
  refine ⟨?_, by decide, by decide, by decide, by decide, by decide⟩
  intro category
  cases category with
  | none => rfl
  | some s =>
    by_cases h0 : s = ""
    · simp [map_purpose_category, mapPurposeSpec, h0]
    · simp only [map_purpose_category, mapPurposeSpec, h0, if_false,
        purpose_keyword_table, List.findIdx?_cons, List.findIdx?_nil]
      by_cases h1 : (["necessary", "essential", "required", "strictly"].any
          (fun k => strHasCI s k)) = true
      · simp [h1]
      · simp only [h1]
        by_cases h2 : (["functional", "preference", "personalization"].any
            (fun k => strHasCI s k)) = true
        · simp [h1, h2]
        · simp only [h2]
          by_cases h3 : (["analytics", "performance", "statistics",
              "measurement"].any (fun k => strHasCI s k)) = true
          · simp [h1, h2, h3]
          · simp only [h3]
            by_cases h4 : (["advertising", "marketing", "targeting",
                "ads"].any (fun k => strHasCI s k)) = true
            · simp [h1, h2, h3, h4]
            · simp only [h4]
              by_cases h5 : (["social", "media"].any
                  (fun k => strHasCI s k)) = true
              · simp [h1, h2, h3, h4, h5]
              · simp [h1, h2, h3, h4, h5]

/-- The effect of one loop iteration on the dict alone. -/
def dictStep (include_unmatched : Bool) (d : List (String × CookieEntry))
    (r : JoinedRow) : List (String × CookieEntry) :=
  if rowKept include_unmatched r then
    match assocFind (rowKey r) d with
    | some _ => assocUpdVar (rowKey r) (varOf r) d
    | none => d ++ [(rowKey r, entryOf r)]
  else d

theorem extractStep_dict (flag : Bool) (st : ExtractState) (r : JoinedRow) :
    (extractStep flag st r).dict = dictStep flag st.dict r := by
  by_cases hf : falsyName r = true
  · simp [extractStep, dictStep, rowKept, hf]
  · have hf2 : falsyName r = false := by simpa using hf
    by_cases hc : hasConsentData r = true
    · cases hA : assocFind (rowKey r) st.dict <;>
        simp [extractStep, dictStep, rowKept, hf2, hc, hA]
    · have hc2 : hasConsentData r = false := by simpa using hc
      cases hflag : flag with
      | false => simp [extractStep, dictStep, rowKept, hf2, hc2, hflag]
      | true =>
        cases hA : assocFind (rowKey r) st.dict <;>
          simp [extractStep, dictStep, rowKept, hf2, hc2, hflag, hA]

theorem foldl_extractStep_dict (flag : Bool) : ∀ (rows : List JoinedRow)
    (st1 st2 : ExtractState), st1.dict = st2.dict →
    (rows.foldl (extractStep flag) st1).dict =
      (rows.foldl (extractStep flag) st2).dict := by
  intro rows
  induction rows with
  | nil => intro st1 st2 h; exact h
  | cons r rest ih =>
    intro st1 st2 h
    simp only [List.foldl_cons]
    refine ih _ _ ?_
    rw [extractStep_dict, extractStep_dict, h]

theorem assocFind_updVar (key : String) (v : VarData) :
    ∀ (d : List (String × CookieEntry)) (k : String),
      assocFind k (assocUpdVar key v d) =
        if k = key then
          (assocFind key d).map
            (fun e => { e with variable_data := e.variable_data ++ [v] })
        else assocFind k d := by
  intro d
  induction d with
  | nil =>
    intro k
    by_cases h : k = key <;> simp [assocUpdVar, assocFind, h]
  | cons p rest ih =>
    intro k
    obtain ⟨k2, e⟩ := p
    by_cases h2 : k2 = key
    · subst h2
      by_cases hk : k = k2
      · subst hk
        simp [assocUpdVar, assocFind]
      · have hk2 : ¬ k2 = k := fun h => hk h.symm
        simp [assocUpdVar, assocFind, hk, hk2]
    · by_cases hk : k2 = k
      · subst hk
        have hkey : ¬ k2 = key := h2
        simp [assocUpdVar, assocFind, hkey, fun h => hkey (h : k2 = key)]
      · simp [assocUpdVar, assocFind, h2, hk, ih]

theorem assocFind_append_one (key : String) (e : CookieEntry) :
    ∀ (d : List (String × CookieEntry)) (k : String),
      assocFind k (d ++ [(key, e)]) =
        match assocFind k d with
        | some x => some x
        | none => if key = k then some e else none := by
  intro d
  induction d with
  | nil => intro k; simp [assocFind]
  | cons p rest ih =>
    intro k
    obtain ⟨k2, x⟩ := p
    by_cases hk : k2 = k <;> simp [assocFind, hk, ih]

theorem dictKeys_updVar (key : String) (v : VarData) :
    ∀ d : List (String × CookieEntry),
      (assocUpdVar key v d).map Prod.fst = d.map Prod.fst := by
  intro d
  induction d with
  | nil => rfl
  | cons p rest ih =>
    obtain ⟨k2, e⟩ := p
    by_cases h : k2 = key <;> simp [assocUpdVar, h, ih]

/-- Length of the variable_data list stored under a key (0 if absent). -/
def varLenIn (d : List (String × CookieEntry)) (k : String) : Nat :=
  match assocFind k d with
  | none => 0
  | some e => e.variable_data.length

/-- Number of rows the loop keeps for a given export key. -/
def countKept (flag : Bool) (k : String) (rows : List JoinedRow) : Nat :=
  (rows.filter (fun r => rowKept flag r && (rowKey r == k))).length

/-- Sum of all variable_data lengths in the dict. -/
def sumVarData (d : List (String × CookieEntry)) : Nat :=
  (d.map (fun p => p.2.variable_data.length)).sum

theorem varLenIn_dictStep (flag : Bool) (d : List (String × CookieEntry))
    (r : JoinedRow) (k : String) :
    varLenIn (dictStep flag d r) k =
      varLenIn d k + (if rowKept flag r && (rowKey r == k) then 1 else 0) := by
  by_cases hkept : rowKept flag r = true
  · cases hA : assocFind (rowKey r) d with
    | some e =>
      simp only [dictStep, hkept, if_true, hA]
      by_cases hk : rowKey r = k
      · subst hk
        simp [varLenIn, assocFind_updVar, hA, hkept]
      · have hk2 : ¬ k = rowKey r := fun h => hk h.symm
        simp [varLenIn, assocFind_updVar, hk2, hkept, hk]
    | none =>
      simp only [dictStep, hkept, if_true, hA]
      by_cases hk : rowKey r = k
      · subst hk
        simp [varLenIn, assocFind_append_one, hA, hkept, entryOf]
      · have hk2 : ¬ k = rowKey r := fun h => hk h.symm
        simp only [varLenIn, assocFind_append_one, hkept, hk,
          Bool.and_eq_true, beq_iff_eq, if_neg]
        cases hB : assocFind k d <;> simp [hB, hk, hk2]
  · have hkept2 : rowKept flag r = false := by simpa using hkept
    simp [dictStep, hkept2]

theorem varLenIn_processRows_aux (flag : Bool) : ∀ (rows : List JoinedRow)
    (st : ExtractState) (k : String),
    varLenIn (rows.foldl (extractStep flag) st).dict k =
      varLenIn st.dict k + countKept flag k rows := by
  intro rows
  induction rows with
  | nil => intro st k; simp [countKept]
  | cons r rest ih =>
    intro st k
    simp only [List.foldl_cons]
    rw [ih (extractStep flag st r) k, extractStep_dict, varLenIn_dictStep]
    have : countKept flag k (r :: rest) =
        (if rowKept flag r && (rowKey r == k) then 1 else 0) + countKept flag k rest := by
      by_cases h : (rowKept flag r && (rowKey r == k)) = true
      · simp only [countKept, List.filter_cons, h, if_true, List.length_cons]
        omega
      · simp [countKept, List.filter_cons, h]
    rw [this]
    omega

theorem dictKeys_dictStep (flag : Bool) (d : List (String × CookieEntry))
    (r : JoinedRow) :
    (dictStep flag d r).map Prod.fst =
      if rowKept flag r ∧ assocFind (rowKey r) d = none
      then d.map Prod.fst ++ [rowKey r] else d.map Prod.fst := by
  by_cases hkept : rowKept flag r = true
  · cases hA : assocFind (rowKey r) d with
    | some e => simp [dictStep, hkept, hA, dictKeys_updVar]
    | none => simp [dictStep, hkept, hA]
  · have hkept2 : rowKept flag r = false := by simpa using hkept
    simp [dictStep, hkept2]

theorem sumVarData_updVar (key : String) (v : VarData) :
    ∀ (d : List (String × CookieEntry)) (e : CookieEntry),
      assocFind key d = some e →
      sumVarData (assocUpdVar key v d) = sumVarData d + 1 := by
  intro d
  induction d with
  | nil => intro e h; simp [assocFind] at h
  | cons p rest ih =>
    intro e h
    obtain ⟨k2, x⟩ := p
    by_cases h2 : k2 = key
    · simp [assocUpdVar, h2, sumVarData]
      omega
    · simp only [assocFind] at h
      rw [if_neg h2] at h
      simp only [assocUpdVar, if_neg h2, sumVarData, List.map_cons, List.sum_cons]
      have hrec : sumVarData (assocUpdVar key v rest) = sumVarData rest + 1 := ih e h
      simp only [sumVarData] at hrec
      omega

theorem sumVarData_dictStep (flag : Bool) (d : List (String × CookieEntry))
    (r : JoinedRow) (hkept : rowKept flag r = true) :
    sumVarData (dictStep flag d r) = sumVarData d + 1 := by
  cases hA : assocFind (rowKey r) d with
  | some e =>
    simp only [dictStep, hkept, if_true, hA]
    exact sumVarData_updVar (rowKey r) (varOf r) d e hA
  | none =>
    simp [dictStep, hkept, hA, sumVarData, entryOf]

/-! ## Persistence Store (sqlite schema of consent_crawler.init_database) -/

/-- One crawl_results row.  The schema also has a DEFAULT CURRENT_TIMESTAMP
column, filled by sqlite and read by no modelled code path. -/
structure CrawlRec where
  id : Nat
  domain : String
  success : Bool
  cmp_type : Option String
  cookies_collected : Nat
  error_message : Option String
deriving DecidableEq

/-- One cookies row (name and domain are NOT NULL). -/
structure CookieRow where
  crawl_id : Nat
  name : String
  domain : String
  value : Option String
  path : Option String
  expiry : Option String
  secure : Option Bool
  http_only : Option Bool
  same_site : Option String
deriving DecidableEq

/-- One consent_data row (cookie_name and cookie_domain are NOT NULL). -/
structure ConsentRow where
  crawl_id : Nat
  cookie_name : String
  cookie_domain : String
  purpose_category : Option String
  purpose_description : Option String
  cmp_type : Option String
deriving DecidableEq

/-- The three tables. -/
structure Database where
  crawl_results : List CrawlRec
  cookies : List CookieRow
  consent_data : List ConsentRow
deriving DecidableEq

/-- A join row for a crawl with a cookie and an optional consent match. -/
def rowOfCookie (cr : CrawlRec) (c : CookieRow) (cd : Option ConsentRow) :
    JoinedRow :=
  { crawl_id := cr.id
    domain := cr.domain
    cmp_type := cr.cmp_type
    cookie_name := some c.name
    cookie_domain := some c.domain
    cookie_value := c.value
    cookie_path := c.path
    cookie_expiry := c.expiry
    cookie_secure := c.secure
    cookie_http_only := c.http_only
    cookie_same_site := c.same_site
    purpose_category := match cd with | none => none | some x => x.purpose_category
    purpose_description := match cd with | none => none | some x => x.purpose_description }

/-- A join row for a crawl with no cookie rows: all LEFT JOIN columns NULL. -/
def rowNoCookie (cr : CrawlRec) : JoinedRow :=
  { crawl_id := cr.id
    domain := cr.domain
    cmp_type := cr.cmp_type
    cookie_name := none
    cookie_domain := none
    cookie_value := none
    cookie_path := none
    cookie_expiry := none
    cookie_secure := none
    cookie_http_only := none
    cookie_same_site := none
    purpose_category := none
    purpose_description := none }

/-- The matcher query before ORDER BY: crawl_results (success only)
LEFT JOIN cookies on crawl_id, LEFT JOIN consent_data on crawl_id and the
cookie (name, domain) pair.  Rows appear in table order. -/
def joinRows (db : Database) : List JoinedRow :=
  (db.crawl_results.filter (fun cr => cr.success)).flatMap (fun cr =>
    let cs := db.cookies.filter (fun c => c.crawl_id == cr.id)
    if cs.isEmpty then [rowNoCookie cr]
    else
      cs.flatMap (fun c =>
        let cds := db.consent_data.filter (fun cd =>
          cd.crawl_id == cr.id && cd.cookie_name == c.name &&
            cd.cookie_domain == c.domain)
        if cds.isEmpty then [rowOfCookie cr c none]
        else cds.map (fun cd => rowOfCookie cr c (some cd))))

/-- Lexicographic codepoint order on character lists (sqlite TEXT order
for the ASCII data at hand). -/
def charListLt : List Char → List Char → Bool
  | [], [] => false
  | [], _ :: _ => true
  | _ :: _, [] => false
  | a :: as, b :: bs =>
    if a.toNat < b.toNat then true
    else if b.toNat < a.toNat then false
    else charListLt as bs

/-- Strict string order used by the ORDER BY model. -/
def strLtB (a b : String) : Bool := charListLt a.data b.data

/-- NULLS-first comparison of the optional cookie name (sqlite ASC order). -/
def nameLt : Option String → Option String → Bool
  | none, none => false
  | none, some _ => true
  | some _, none => false
  | some a, some b => strLtB a b

/-- Strict ORDER BY (cr.domain, c.name) key comparison. -/
def rowLt (a b : JoinedRow) : Bool :=
  strLtB a.domain b.domain ||
    (a.domain == b.domain && nameLt a.cookie_name b.cookie_name)

/-- Insert a row before the first strictly greater row (stable for ties). -/
def insSorted (r : JoinedRow) : List JoinedRow → List JoinedRow
  | [] => [r]
  | x :: xs => if rowLt x r then x :: insSorted r xs else r :: x :: xs

/-- ORDER BY cr.domain, c.name as a stable insertion sort; ties keep join
order, one valid outcome of the unspecified sqlite tie order. -/
def orderRows : List JoinedRow → List JoinedRow
  | [] => []
  | r :: rs => insSorted r (orderRows rs)

/-- The matcher run against the store: query, order, then the row loop. -/
def extract_from_database (db : Database) (include_unmatched : Bool)
    (now : String) : ExportData :=
  extract_cookies_with_consent include_unmatched (orderRows (joinRows db)) now

/-- In how many distinct crawls does the cookies table hold a given
(name, domain) pair. -/
def observedCrawlCount (db : Database) (name domain : String) : Nat :=
  (((db.cookies.filter (fun c => c.name == name && c.domain == domain)).map
    (fun c => c.crawl_id)).dedup).length

/-- A store with one successful crawl, one cookie and one declaration. -/
def dbC2 : Database :=
  { crawl_results := [⟨1, "a.com", true, some "cookiebot", 1, none⟩],
    cookies := [⟨1, "sid", "a.com", some "v", some "/", some "x", some true,
      some false, some "Lax"⟩],
    consent_data := [⟨1, "sid", "a.com", some "necessary", some "session",
      some "cookiebot"⟩] }

/-- Counterexample to claim C2 as stated: the export embeds
datetime.now().isoformat() as statistics.extraction_date, so two runs over
the identical store at different instants are not byte-identical. -/
theorem C2_timestamp_counterexample :
    extract_from_database dbC2 false "2024-01-01T00:00:00" ≠
      extract_from_database dbC2 false "2024-01-02T00:00:00" := by decide

/-- Claim C2, corrected: everything in the export except the embedded
extraction_date is a function of the stored rows alone — the cookies
mapping and the three counters are identical across runs at different
instants, and the whole outputs differ exactly by that timestamp field. -/
theorem C2_deterministic_modulo_timestamp (db : Database) (flag : Bool)
    (rows : List JoinedRow) (t1 t2 : String) :
    (extract_from_database db flag t1).cookies =
      (extract_from_database db flag t2).cookies ∧
    (extract_cookies_with_consent flag rows t1).cookies =
      (extract_cookies_with_consent flag rows t2).cookies ∧
    (extract_cookies_with_consent flag rows t1).statistics.total_unique_cookies =
      (extract_cookies_with_consent flag rows t2).statistics.total_unique_cookies ∧
    (extract_cookies_with_consent flag rows t1).statistics.matched_cookies =
      (extract_cookies_with_consent flag rows t2).statistics.matched_cookies ∧
    (extract_cookies_with_consent flag rows t1).statistics.unmatched_cookies =
      (extract_cookies_with_consent flag rows t2).statistics.unmatched_cookies ∧
    extract_cookies_with_consent flag rows t2 =
      { extract_cookies_with_consent flag rows t1 with
        statistics :=
          { (extract_cookies_with_consent flag rows t1).statistics with
            extraction_date := t2 } } :=
  ⟨rfl, rfl, rfl, rfl, rfl, rfl⟩

/-- A store observing the (sid, a.com) pair in two crawls, with a
declaration joined in only the first. -/
def dbC3 : Database :=
  { crawl_results := [⟨1, "a.com", true, some "cookiebot", 1, none⟩,
      ⟨2, "a.com", true, some "cookiebot", 1, none⟩],
    cookies := [⟨1, "sid", "a.com", some "v1", some "/", some "e1", some false,
      some false, some "Lax"⟩,
      ⟨2, "sid", "a.com", some "v2", some "/", some "e2", some false,
        some false, some "Lax"⟩],
    consent_data := [⟨1, "sid", "a.com", some "necessary", some "session",
      some "cookiebot"⟩] }

/-- Counterexample to claim C3 as stated: the pair (sid, a.com) is observed
in 2 crawls, but the default run skips the unmatched second instance, so
the exported entry holds only 1 variable_data element. -/
theorem C3_crawl_count_counterexample :
    observedCrawlCount dbC3 "sid" "a.com" = 2 ∧
    (assocFind "a.com_sid" (extract_from_database dbC3 false "t").cookies).map
      (fun e => e.variable_data.length) = some 1 :=
  ⟨by decide, by decide⟩

/-- Claim C3, corrected: a MatchedCookie's variable_data length equals the
number of kept join rows for its composite key (rows with a cookie and
either joined consent data or the include-unmatched flag), and processing
one further kept row whose key already exists grows that entry's
variable_data by exactly 1 and adds no top-level key. -/
theorem C3_vardata_counts_kept_rows :
    (∀ (flag : Bool) (rows : List JoinedRow) (k : String) (e : CookieEntry),
      assocFind k (processRows flag rows).dict = some e →
      e.variable_data.length = countKept flag k rows) ∧
    (∀ (flag : Bool) (rows : List JoinedRow) (r : JoinedRow),
      rowKept flag r = true →
      assocFind (rowKey r) (processRows flag rows).dict ≠ none →
      (processRows flag (rows ++ [r])).dict.map Prod.fst =
        (processRows flag rows).dict.map Prod.fst ∧
      varLenIn (processRows flag (rows ++ [r])).dict (rowKey r) =
        varLenIn (processRows flag rows).dict (rowKey r) + 1) := by
  constructor
  · intro flag rows k e hfind
    have h : varLenIn (processRows flag rows).dict k = 0 + countKept flag k rows :=
      varLenIn_processRows_aux flag rows ⟨[], 0, 0⟩ k
    have h2 : varLenIn (processRows flag rows).dict k = e.variable_data.length := by
      simp [varLenIn, hfind]
    omega
  · intro flag rows r hkept hfind
    have hstep : (processRows flag (rows ++ [r])).dict =
        dictStep flag (processRows flag rows).dict r := by
      simp only [processRows, List.foldl_append, List.foldl_cons, List.foldl_nil]
      exact extractStep_dict flag _ r
    constructor
    · rw [hstep, dictKeys_dictStep, if_neg]
      rintro ⟨_, hnone⟩
      exact hfind hnone
    · rw [hstep, varLenIn_dictStep]
      simp [hkept]

/-- A kept join row for the (sid, a.com) pair, first crawl. -/
def rowW1 : JoinedRow :=
  { crawl_id := 1, domain := "a.com", cmp_type := some "cookiebot",
    cookie_name := some "sid", cookie_domain := some "a.com",
    cookie_value := some "v1", cookie_path := some "/",
    cookie_expiry := some "1", cookie_secure := some false,
    cookie_http_only := some false, cookie_same_site := some "Lax",
    purpose_category := some "necessary", purpose_description := some "d1" }

/-- The same pair observed by a second crawl. -/
def rowW2 : JoinedRow :=
  { rowW1 with crawl_id := 2, cookie_value := some "v2" }

/-- Witness for C3: a second kept row for an existing key adds no key and
grows its variable_data length by exactly 1. -/
theorem C3_vardata_counts_kept_rows_witness :
    rowKept false rowW2 = true ∧
    (processRows false ([rowW1] ++ [rowW2])).dict.map Prod.fst =
      (processRows false [rowW1]).dict.map Prod.fst ∧
    varLenIn (processRows false ([rowW1] ++ [rowW2])).dict (rowKey rowW2) =
      varLenIn (processRows false [rowW1]).dict (rowKey rowW2) + 1 :=
  ⟨by decide,
   (C3_vardata_counts_kept_rows.2 false [rowW1] rowW2 (by decide) (by decide)).1,
   (C3_vardata_counts_kept_rows.2 false [rowW1] rowW2 (by decide) (by decide)).2⟩

theorem rowKept_false_of_noConsent (r : JoinedRow)
    (h : hasConsentData r = false) : rowKept false r = false := by
  simp [rowKept, h]

theorem label_of_unmatched (r : JoinedRow) (h : hasConsentData r = false) :
    map_purpose_category r.purpose_category = -1 := by
  cases hp : r.purpose_category with
  | none => rfl
  | some s =>
    have hs : s = "" := by simpa [hasConsentData, hp] using h
    subst hs
    rfl

/-- A store whose only cookie instance has the empty name and no joined
declaration. -/
def dbC8a : Database :=
  { crawl_results := [⟨1, "a.com", true, some "unknown", 1, none⟩],
    cookies := [⟨1, "", "a.com", some "v", some "/", some "x", some false,
      some false, some "Lax"⟩],
    consent_data := [] }

/-- A store where the (sid, a.com) pair is matched with label 0 by crawl 1
and unmatched in crawl 2. -/
def dbC8b : Database :=
  { crawl_results := [⟨1, "a.com", true, some "cookiebot", 1, none⟩,
      ⟨2, "a.com", true, some "cookiebot", 1, none⟩],
    cookies := [⟨1, "sid", "a.com", some "v1", some "/", some "e1", some false,
      some false, some "Lax"⟩,
      ⟨2, "sid", "a.com", some "v2", some "/", some "e2", some false,
        some false, some "Lax"⟩],
    consent_data := [⟨1, "sid", "a.com", some "necessary", some "session",
      some "cookiebot"⟩] }

/-- Counterexample to claim C8 as stated: an empty-named cookie instance
with no declaration is dropped even under the include-unmatched flag, and
an unmatched instance joining an entry created by a matched row is
included under that entry's existing label 0, not -1. -/
theorem C8_unmatched_counterexample :
    (extract_from_database dbC8a true "t").cookies = [] ∧
    (assocFind "a.com_sid" (extract_from_database dbC8b true "t").cookies).map
      (fun e => (e.label, e.variable_data.length)) = some (0, 2) :=
  ⟨by decide, by decide⟩

/-- Claim C8, corrected: a cookie instance with no joined declaration is
excluded from the default export; under the include-unmatched flag a
nonempty-named unmatched instance is included, adding exactly one
variable_data element, and when it is the first occurrence of its key the
entry it creates carries label -1 (an existing entry keeps its earlier
label; empty-named instances are always dropped). -/
theorem C8_unmatched_policy :
    (∀ (pre : List JoinedRow) (r : JoinedRow) (post : List JoinedRow),
      hasConsentData r = false →
      (processRows false (pre ++ r :: post)).dict =
        (processRows false (pre ++ post)).dict) ∧
    (∀ (pre : List JoinedRow) (r : JoinedRow),
      rowKept true r = true → hasConsentData r = false →
      sumVarData (processRows true (pre ++ [r])).dict =
        sumVarData (processRows true pre).dict + 1 ∧
      (assocFind (rowKey r) (processRows true pre).dict = none →
        assocFind (rowKey r) (processRows true (pre ++ [r])).dict =
          some (entryOf r) ∧
        (entryOf r).label = -1)) := by
  constructor
  · intro pre r post h
    simp only [processRows, List.foldl_append, List.foldl_cons]
    refine foldl_extractStep_dict false post _ _ ?_
    rw [extractStep_dict]
    simp [dictStep, rowKept_false_of_noConsent r h]
  · intro pre r hkept hnoc
    have hstep : (processRows true (pre ++ [r])).dict =
        dictStep true (processRows true pre).dict r := by
      simp only [processRows, List.foldl_append, List.foldl_cons, List.foldl_nil]
      exact extractStep_dict true _ r
    constructor
    · rw [hstep]
      exact sumVarData_dictStep true _ r hkept
    · intro hnone
      refine ⟨?_, ?_⟩
      · rw [hstep]
        simp only [dictStep, hkept, if_true, hnone]
        rw [assocFind_append_one]
        simp [hnone]
      · simp only [entryOf]
        exact label_of_unmatched r hnoc

/-- An unmatched, nonempty-named join row for the C8 witness. -/
def rowC8w : JoinedRow :=
  { crawl_id := 3, domain := "b.com", cmp_type := some "onetrust",
    cookie_name := some "tid", cookie_domain := some "b.com",
    cookie_value := some "w", cookie_path := some "/",
    cookie_expiry := some "2", cookie_secure := some true,
    cookie_http_only := some false, cookie_same_site := some "None",
    purpose_category := none, purpose_description := none }

/-- Witness for C8: the unmatched instance is dropped by the default run
and included with label -1 by the flag run. -/
theorem C8_unmatched_policy_witness :
    (processRows false ([] ++ rowC8w :: [])).dict =
      (processRows false ([] ++ [])).dict ∧
    rowKept true rowC8w = true ∧
    sumVarData (processRows true ([] ++ [rowC8w])).dict =
      sumVarData (processRows true []).dict + 1 ∧
    assocFind (rowKey rowC8w) (processRows true ([] ++ [rowC8w])).dict =
      some (entryOf rowC8w) ∧
    (entryOf rowC8w).label = -1 :=
  ⟨C8_unmatched_policy.1 [] rowC8w [] (by decide),
   by decide,
   (C8_unmatched_policy.2 [] rowC8w (by decide) (by decide)).1,
   ((C8_unmatched_policy.2 [] rowC8w (by decide) (by decide)).2 (by decide)).1,
   ((C8_unmatched_policy.2 [] rowC8w (by decide) (by decide)).2 (by decide)).2⟩

/-- Claim C9: once a key exists in the export dict, a later kept row with
the same key only appends its variable_data element: the stored name,
domain, path, cmp_origin, label, purpose_description and crawl_domain stay
exactly those of the first-processed row, whatever the later row carries,
no other key changes, and no key is added. -/
theorem C9_first_row_wins (flag : Bool) (st : ExtractState) (r : JoinedRow)
    (e : CookieEntry) (hkept : rowKept flag r = true)
    (hfound : assocFind (rowKey r) st.dict = some e) :
    assocFind (rowKey r) (extractStep flag st r).dict =
      some { e with variable_data := e.variable_data ++ [varOf r] } ∧
    (∀ k, k ≠ rowKey r →
      assocFind k (extractStep flag st r).dict = assocFind k st.dict) ∧
    (extractStep flag st r).dict.map Prod.fst = st.dict.map Prod.fst := by
  have hstep : (extractStep flag st r).dict =
      assocUpdVar (rowKey r) (varOf r) st.dict := by
    rw [extractStep_dict]
    simp [dictStep, hkept, hfound]
  refine ⟨?_, ?_, ?_⟩
  · rw [hstep, assocFind_updVar]
    simp [hfound]
  · intro k hk
    rw [hstep, assocFind_updVar]
    simp [hk]
  · rw [hstep]
    exact dictKeys_updVar (rowKey r) (varOf r) st.dict

/-- First-processed row for the C9 witness: matched, label 0. -/
def rowC9a : JoinedRow :=
  { crawl_id := 1, domain := "a.com", cmp_type := some "cookiebot",
    cookie_name := some "sid", cookie_domain := some "a.com",
    cookie_value := some "v1", cookie_path := some "/",
    cookie_expiry := some "1", cookie_secure := some false,
    cookie_http_only := some false, cookie_same_site := some "Lax",
    purpose_category := some "necessary", purpose_description := some "d1" }

/-- Later row with the same key but different path, label-relevant
category, description, crawl domain and values. -/
def rowC9b : JoinedRow :=
  { crawl_id := 2, domain := "mirror.a.com", cmp_type := some "onetrust",
    cookie_name := some "sid", cookie_domain := some "a.com",
    cookie_value := some "v2", cookie_path := some "/app",
    cookie_expiry := some "9", cookie_secure := some true,
    cookie_http_only := some true, cookie_same_site := some "None",
    purpose_category := some "advertising", purpose_description := some "d2" }

/-- Witness for C9: processing the divergent later row only appends its
variable_data element to the entry created from the first row. -/
theorem C9_first_row_wins_witness :
    rowKept true rowC9b = true ∧
    assocFind (rowKey rowC9b)
        (extractStep true (processRows true [rowC9a]) rowC9b).dict =
      some { entryOf rowC9a with
        variable_data := (entryOf rowC9a).variable_data ++ [varOf rowC9b] } :=
  ⟨by decide,
   (C9_first_row_wins true (processRows true [rowC9a]) rowC9b (entryOf rowC9a)
      (by decide) (by decide)).1⟩

/-! ## Consent Extractor crawl and persistence (src/crawlers/consent_crawler.py) -/

/-- One consent dict built by extract_consent_data_cookiebot or
extract_consent_data_onetrust (all five keys are always set). -/
structure ConsentEntry where
  name : String
  domain : String
  category : String
  purpose : String
  cmp : String
deriving DecidableEq

/-- The CrawlResult dataclass.  It carries only the count of collected
cookies, never the cookies themselves. -/
structure CrawlResult where
  domain : String
  success : Bool
  cmp_type : String
  cookies_collected : Nat
  consent_data : List ConsentEntry
  error_message : Option String
deriving DecidableEq

/-- What the browser session yields for one domain: driver creation
failure, a TimeoutException while loading, another WebDriver exception
(with its str(e) text), or a loaded page.  After WAIT_LOAD every scraping
step catches its own exceptions, so a loaded page is summarized by its
source, its two possible declaration lists and its cookie counts. -/
structure PageModel where
  pageSource : String
  cookiebotConsent : List ConsentEntry
  onetrustConsent : List ConsentEntry
  cookiesPreCount : Nat
  cookiesPostCount : Nat
deriving DecidableEq

inductive BrowserEnv where
  | createFail (msg : String)
  | loadTimeout
  | loadError (msg : String)
  | ok (page : PageModel)
deriving DecidableEq

/-- The prefixing step of crawl_domain: prepend https:// unless the domain
already starts with http:// or https://. -/
def normalizeDomain (d : String) : String :=
  if d.startsWith "http://" || d.startsWith "https://" then d
  else "https://" ++ d

/-- ConsentCrawler.crawl_domain.  Returns the CrawlResult and whether
driver.quit() was reached in the finally block (no driver exists when
create_driver itself raised, so nothing is quit there). -/
def crawl_domain (env : BrowserEnv) (domain : String) : CrawlResult × Bool :=
  match env with
  | .createFail msg =>
    ({ domain := domain, success := false, cmp_type := "unknown",
       cookies_collected := 0, consent_data := [],
       error_message := some msg }, false)
  | .loadTimeout =>
    ({ domain := normalizeDomain domain, success := false,
       cmp_type := "unknown", cookies_collected := 0, consent_data := [],
       error_message := some "Page load timeout" }, true)
  | .loadError msg =>
    ({ domain := normalizeDomain domain, success := false,
       cmp_type := "unknown", cookies_collected := 0, consent_data := [],
       error_message := some msg }, true)
  | .ok page =>
    let cmp := detect_cmp_type page.pageSource
    let consent :=
      if cmp = "cookiebot" then page.cookiebotConsent
      else if cmp = "onetrust" then page.onetrustConsent
      else []
    ({ domain := normalizeDomain domain, success := true, cmp_type := cmp,
       cookies_collected := page.cookiesPostCount, consent_data := consent,
       error_message := none }, true)

/-- ConsentCrawler.save_crawl_result: one INSERT into crawl_results (the
fresh AUTOINCREMENT id is returned as lastrowid) and one INSERT into
consent_data per consent dict, carrying that id.  No INSERT into the
cookies table appears anywhere in the source. -/
def save_crawl_result (db : Database) (r : CrawlResult) : Database × Nat :=
  let newId := (db.crawl_results.foldl (fun m c => max m c.id) 0) + 1
  ({ db with
      crawl_results := db.crawl_results ++
        [{ id := newId, domain := r.domain, success := r.success,
           cmp_type := some r.cmp_type,
           cookies_collected := r.cookies_collected,
           error_message := r.error_message }],
      consent_data := db.consent_data ++ r.consent_data.map (fun c =>
        { crawl_id := newId, cookie_name := c.name, cookie_domain := c.domain,
          purpose_category := some c.category,
          purpose_description := some c.purpose,
          cmp_type := some c.cmp }) },
   newId)

/-- The per-domain loop of ConsentCrawler.crawl_domains: crawl, then save,
for every domain in order (summary statistics omitted). -/
def crawl_domains (env : String → BrowserEnv) (domains : List String)
    (db : Database) : Database :=
  domains.foldl
    (fun d dom => (save_crawl_result d (crawl_domain (env dom) dom).1).1) db

/-- The empty store, as initialized by init_database. -/
def emptyDb : Database := ⟨[], [], []⟩

/-- A successful browser session: a Cookiebot page with one declared
purpose, one cookie before interaction and two after. -/
def pageC1 : PageModel :=
  { pageSource := "uses https://consent.cookiebot.com/uc.js",
    cookiebotConsent := [⟨"sid", "a.com", "necessary", "session cookie",
      "cookiebot"⟩],
    onetrustConsent := [], cookiesPreCount := 1, cookiesPostCount := 2 }

def envC1 : String → BrowserEnv := fun _ => .ok pageC1

/-- Claim C1 evaluated at the failing input: one successful crawl of a.com
collecting 2 cookies writes exactly one crawl_results record (with
cookies_collected = 2) and the consent_data row referencing its id, but
the cookies table stays empty — the collected cookies are discarded, the
CrawlResult carrying only their count, although the schema, the matcher
join and the statistics all read the cookies table. -/
theorem C1_cookies_never_persisted :
    (crawl_domains envC1 ["a.com"] emptyDb).crawl_results =
      [⟨1, "https://a.com", true, some "cookiebot", 2, none⟩] ∧
    (crawl_domains envC1 ["a.com"] emptyDb).consent_data =
      [⟨1, "sid", "a.com", some "necessary", some "session cookie",
        some "cookiebot"⟩] ∧
    (crawl_domains envC1 ["a.com"] emptyDb).cookies = [] :=
  ⟨by decide, by decide, by decide⟩

/-- Does the session fail before the page is usable. -/
def failEnv : BrowserEnv → Bool
  | .ok _ => false
  | _ => true

/-- The error text crawl_domain records for a failing session. -/
def failMsgOf : BrowserEnv → String
  | .createFail m => m
  | .loadTimeout => "Page load timeout"
  | .loadError m => m
  | .ok _ => ""

/-- Counterexample to claim C10 as stated: an exception whose str() is
empty yields error_message = some "", so the recorded message is present
but not non-empty. -/
theorem C10_empty_message_counterexample :
    (crawl_domain (BrowserEnv.loadError "") "a.com").1.success = false ∧
    (crawl_domain (BrowserEnv.loadError "") "a.com").1.error_message = some "" ∧
    ((crawl_domain (BrowserEnv.loadError "") "a.com").1.error_message.getD
      "x").length = 0 :=
  ⟨by decide, by decide, by decide⟩

/-- Claim C10, corrected: every failing session returns success = False,
cmp_type unknown, zero cookies, an empty consent list and error_message
set to the exception text ("Page load timeout" for timeouts, possibly the
empty string otherwise); the driver is quit unless driver creation itself
raised; and the failed result is persisted like any other, as one new
crawl_results row with success = False, touching neither other table. -/
theorem C10_failure_handling (env : BrowserEnv) (domain : String)
    (db : Database) (hfail : failEnv env = true) :
    (crawl_domain env domain).1.success = false ∧
    (crawl_domain env domain).1.cmp_type = "unknown" ∧
    (crawl_domain env domain).1.cookies_collected = 0 ∧
    (crawl_domain env domain).1.consent_data = [] ∧
    (crawl_domain env domain).1.error_message = some (failMsgOf env) ∧
    ((crawl_domain env domain).2 = true ∨ ∃ m, env = BrowserEnv.createFail m) ∧
    (save_crawl_result db (crawl_domain env domain).1).1.crawl_results.length =
      db.crawl_results.length + 1 ∧
    ((save_crawl_result db
        (crawl_domain env domain).1).1.crawl_results.getLast?).map
      (fun c => c.success) = some false ∧
    (save_crawl_result db (crawl_domain env domain).1).1.cookies = db.cookies ∧
    (save_crawl_result db (crawl_domain env domain).1).1.consent_data =
      db.consent_data := by
  cases env with
  | createFail m =>
    refine ⟨rfl, rfl, rfl, rfl, rfl, Or.inr ⟨m, rfl⟩, ?_, ?_, rfl, ?_⟩ <;>
      simp [save_crawl_result, crawl_domain]
  | loadTimeout =>
    refine ⟨rfl, rfl, rfl, rfl, rfl, Or.inl rfl, ?_, ?_, rfl, ?_⟩ <;>
      simp [save_crawl_result, crawl_domain]
  | loadError m =>
    refine ⟨rfl, rfl, rfl, rfl, rfl, Or.inl rfl, ?_, ?_, rfl, ?_⟩ <;>
      simp [save_crawl_result, crawl_domain]
  | ok page => simp [failEnv] at hfail

/-- Witness for C10: a page-load timeout records "Page load timeout" and
appends exactly one crawl_results row to the empty store. -/
theorem C10_failure_handling_witness :
    failEnv BrowserEnv.loadTimeout = true ∧
    (crawl_domain BrowserEnv.loadTimeout "a.com").1.error_message =
      some (failMsgOf BrowserEnv.loadTimeout) ∧
    (save_crawl_result emptyDb
        (crawl_domain BrowserEnv.loadTimeout "a.com").1).1.crawl_results.length =
      emptyDb.crawl_results.length + 1 :=
  ⟨rfl,
   (C10_failure_handling BrowserEnv.loadTimeout "a.com" emptyDb (by decide)).2.2.2.2.1,
   (C10_failure_handling BrowserEnv.loadTimeout "a.com" emptyDb
      (by decide)).2.2.2.2.2.2.1⟩
